import Mathlib

/-!
Shallow embedding of the drafter-automation repository (`au`): the field
reconciliation engine (`au/drafter_field.py`), the manual-input gate
(`au/drafter_manual_input.py`, `au/automate.py`), the workflow phase logic
around `run_initial_automation` / `continue_automation` (`au/automate.py`),
and the case-scoped S3 store (`static/unified_s3_manager.py`).

Python dicts are modelled as association lists in insertion order; Python
exceptions as `Except Unit`; values that flow through the records as the
`PyVal` type below.
-/

namespace AuSpec

/-- Model of the Python/JSON values stored in extraction records and the
drafter template: strings, numbers, booleans, null, lists and dicts.
A dict is its item list in insertion order (Python 3.7+ semantics). -/
inductive PyVal where
  | vstr (s : String)
  | vint (n : Int)
  | vbool (b : Bool)
  | vnull
  | vlist (xs : List PyVal)
  | vdict (kvs : List (String × PyVal))

/-- First-match association-list lookup: the value a Python dict holds at a
key (dicts built by `dinsert` never have duplicate keys). -/
def pyLookup (kvs : List (String × PyVal)) (k : String) : Option PyVal :=
  match kvs with
  | [] => none
  | (k2, v) :: rest => if k2 = k then some v else pyLookup rest k

/-- Python `d[k] = v` on a dict: replaces the value in place if the key is
present (keeping its position), otherwise appends the pair. -/
def dinsert (k : String) (v : PyVal) (kvs : List (String × PyVal)) :
    List (String × PyVal) :=
  match kvs with
  | [] => [(k, v)]
  | (k2, w) :: rest =>
      if k2 = k then (k2, v) :: rest else (k2, w) :: dinsert k v rest

/-- Python truthiness of a value (`bool(v)`). -/
def pyTruthy : PyVal → Bool
  | .vstr s => !(s = "")
  | .vint n => !(n = 0)
  | .vbool b => b
  | .vnull => false
  | .vlist xs => !xs.isEmpty
  | .vdict kvs => !kvs.isEmpty

/-- Python comparison `v == "NA"`: only the string "NA" compares equal. -/
def pyIsNA : PyVal → Bool
  | .vstr s => s = "NA"
  | _ => false

/-- Whether the first character list is a prefix of the second. -/
def charsPrefixOf : List Char → List Char → Bool
  | [], _ => true
  | _ :: _, [] => false
  | a :: as2, b :: bs => a = b && charsPrefixOf as2 bs

/-- Whether the first character list occurs contiguously in the second. -/
def charsInfixOf (needle hay : List Char) : Bool :=
  match hay with
  | [] => needle.isEmpty
  | _ :: tl => charsPrefixOf needle hay || charsInfixOf needle tl

/-- Python substring test `needle in haystack` for strings. -/
def strContainsSub (haystack needle : String) : Bool :=
  charsInfixOf needle.toList haystack.toList

/-- Python membership `k in v`. On a dict it tests the keys, on a string it
is a substring test, on a list it tests element equality; on other values
it raises `TypeError` (`Except.error`). -/
def pyContains (v : PyVal) (k : String) : Except Unit Bool :=
  match v with
  | .vdict kvs => .ok (kvs.any (fun p => p.1 = k))
  | .vstr s => .ok (strContainsSub s k)
  | .vlist xs =>
      .ok (xs.any (fun x => match x with | .vstr s => s = k | _ => false))
  | _ => .error ()

/-- Python indexing `v[k]` with a string key: dict lookup (raising
`KeyError` when absent), `TypeError` on every non-dict value. -/
def pyGetItem (v : PyVal) (k : String) : Except Unit PyVal :=
  match v with
  | .vdict kvs =>
      match pyLookup kvs k with
      | some w => .ok w
      | none => .error ()
  | _ => .error ()

/-- Python `str.strip()`: drop whitespace from both ends. -/
def pyStrip (s : String) : String :=
  ((s.toList.dropWhile Char.isWhitespace).reverse.dropWhile
    Char.isWhitespace).reverse.asString

/-! ## Field Reconciliation Engine (`au/drafter_field.py`) -/

/-- The inner field dict of `DrafterFieldAutomation.get_default_drafter_template`
(`au/drafter_field.py` lines 124-178), in source order. -/
def templateFields : List (String × PyVal) :=
  [("Document Provided for Valuation", .vstr " "),
   ("Status of holding", .vstr ""),
   ("Type of Property As per Document", .vstr ""),
   ("Property situated", .vstr ""),
   ("Flats(on each floor)", .vstr ""),
   ("Occupancy percent", .vstr ""),
   ("Residual age of Property (years)", .vstr ""),
   ("Request From/Allocated By", .vstr ""),
   ("Plot No/House No", .vstr ""),
   ("Floor No.", .vstr ""),
   ("Building/Wing Name", .vstr ""),
   ("Street No./Road Name", .vstr ""),
   ("Scheme Name", .vstr ""),
   ("Village/City", .vstr ""),
   ("Pincode", .vstr ""),
   ("Locality", .vstr ""),
   ("Address as per Identifier Docs", .vstr ""),
   ("Class of Locality", .vstr ""),
   ("Property usage", .vstr ""),
   ("Any Negative Locality", .vstr ""),
   ("Location- As per DLC Portal", .vstr ""),
   ("Basic amenities available? (Water, Road)", .vstr "Yes"),
   ("Maintenance Levels", .vstr ""),
   ("Deviation For AU-Remark", .vstr ""),
   ("Setbacks As per Rule-Front", .vstr ""),
   ("Setbacks As per Rule-Back", .vstr ""),
   ("Setbacks As per Rule-Side 1", .vstr ""),
   ("Setbacks As per Rule-Side 2", .vstr ""),
   ("East - As Per Document(Boundary)", .vstr ""),
   ("West - As Per Document(Boundary)", .vstr ""),
   ("North - As per Document(Boundary)", .vstr ""),
   ("south - As per Document(Boundary)", .vstr ""),
   ("Unit For Dimension (Doc)", .vstr "ft"),
   ("East - As per Docs(Dimension)", .vstr ""),
   ("West - As per Docs(Dimension)", .vstr ""),
   ("North - As per Docs(Dimension)", .vstr ""),
   ("South - As per Docs(Dimension)", .vstr "")]

/-- `get_default_drafter_template`: the full default template record
`{"drafter_field": {...}}`. -/
def get_default_drafter_template : List (String × PyVal) :=
  [("drafter_field", .vdict templateFields)]

/-- The default template as a `PyVal`, as returned by the load helpers. -/
def defaultTemplatePy : PyVal := .vdict get_default_drafter_template

/-- Whether a value counts as blank for `find_blank_fields`: Python
`isinstance(value, (str, list, dict, tuple)) and len(value) == 0`
(ints, bools, floats and None are never blank). -/
def blankValue : PyVal → Bool
  | .vstr s => s = ""
  | .vlist xs => xs.isEmpty
  | .vdict kvs => kvs.isEmpty
  | _ => false

/-- `DrafterFieldAutomation.find_blank_fields` (`au/drafter_field.py` lines
78-85): the keys of the record whose value is an empty sized value, in
iteration (= insertion) order. -/
def find_blank_fields (data : List (String × PyVal)) : List String :=
  (data.filter (fun p => blankValue p.2)).map (fun p => p.1)

/-- `doc_field_mapping` of `convert_combined_to_drafter_format`
(`au/drafter_field.py` lines 193-225): target drafter key → document
source key (a dotted source key denotes a nested group lookup). -/
def doc_field_mapping : List (String × String) :=
  [("Property situated", "Property_Situated"),
   ("Document Provided for Valuation", "Document_Type"),
   ("Status of holding", "Holding_status"),
   ("Type of Property As per Document", "Type_of_Property_As_per_document"),
   ("Plot No/House No", "Plot_No/House_No"),
   ("Floor No.", "Floor_No"),
   ("Building/Wing Name", "Building/Wing_Name"),
   ("Street No./Road Name", "Street_No/Road_Name"),
   ("Scheme Name", "Scheme_Name"),
   ("Village/City", "Village_City"),
   ("Pincode", "pincode"),
   ("Locality", "Locality"),
   ("Setbacks As per Rule-Front", "setbacks.Setbacks As per Rule-Front"),
   ("Setbacks As per Rule-Back", "setbacks.Setbacks As per Rule-Back"),
   ("Setbacks As per Rule-Side 1", "setbacks.Setbacks As per Rule-Side 1"),
   ("Setbacks As per Rule-Side 2", "setbacks.Setbacks As per Rule-Side 2"),
   ("East - As Per Document(Boundary)", "property_boundaries.east"),
   ("West - As Per Document(Boundary)", "property_boundaries.west"),
   ("North - As Per Document(Boundary)", "property_boundaries.north"),
   ("South - As Per Document(Boundary)", "property_boundaries.south"),
   ("East - As Per Docs(Dimension)", "property_dimensions.east"),
   ("West - As Per Docs(Dimension)", "property_dimensions.west"),
   ("North - As Per Docs(Dimension)", "property_dimensions.north"),
   ("South - As Per Docs(Dimension)", "property_dimensions.south"),
   ("Unit - For Dimension (Doc)", "property_dimensions.unit")]

/-- The image-analysis mapping used for both the nested
`image_field_mapping` and the identical `top_level_image_mapping`
(`au/drafter_field.py` lines 256-264 and 276-283). -/
def image_field_mapping : List (String × String) :=
  [("Flats(on each floor)", "FlatOnEachFloor"),
   ("Occupancy percent", "OccupancyPercent"),
   ("Class of Locality", "ClassOfLocality"),
   ("Property usage", "PropertyUsage")]

/-- Split a character list at every dot, mirroring Python
`str.split('.')`. -/
def splitDotAux : List Char → List Char → List (List Char)
  | [], acc => [acc.reverse]
  | c :: rest, acc =>
      if c = '.' then acc.reverse :: splitDotAux rest []
      else splitDotAux rest (c :: acc)

/-- Python `doc_field.split('.')`. -/
def splitDot (s : String) : List String :=
  (splitDotAux s.toList []).map List.asString

/-- The value the document pass assigns for one mapping entry, or `none`
when the entry is skipped. Mirrors the per-field body of the document
loop (`au/drafter_field.py` lines 228-243): a dotted source key
(`'.' in doc_field`) is split and looked up through the nested group
(requiring the group to be a dict and the leaf to differ from "NA"); a
plain source key is looked up at top level. Any Python error in the body
is caught by the per-field `try/except` and results in a skip, hence
`none`. -/
def doc_assign (doc : PyVal) (docField : String) : Option PyVal :=
  if docField.toList.contains '.' then
    match splitDot docField with
    | [mainField, subField] =>
        match pyContains doc mainField with
        | .ok true =>
            match pyGetItem doc mainField with
            | .ok (.vdict group) =>
                match pyLookup group subField with
                | some w => if pyIsNA w then none else some w
                | none => none
            | _ => none
        | _ => none
    | _ => none
  else
    match pyContains doc docField with
    | .ok true =>
        match pyGetItem doc docField with
        | .ok w => if pyIsNA w then none else some w
        | _ => none
    | _ => none

/-- One step of the document pass: assign the mapped value when
`doc_assign` produces one, otherwise leave the dict unchanged. -/
def doc_step (doc : PyVal) (acc : List (String × PyVal)) (p : String × String) :
    List (String × PyVal) :=
  match doc_assign doc p.2 with
  | some v => dinsert p.1 v acc
  | none => acc

/-- The document pass: fold `doc_field_mapping` over the drafter dict. -/
def doc_pass (doc : PyVal) (d : List (String × PyVal)) : List (String × PyVal) :=
  doc_field_mapping.foldl (doc_step doc) d

/-- The shared tail of both image-pass conditions, applied to the source
value found for one mapping entry: the value must be truthy
(`image_...[image_field]`), differ from "NA", and the current drafter
value at the target key must be falsy (`not drafter_data["drafter_field"]
[drafter_field]`, raising `KeyError` if the target key were absent); then
the value is assigned. -/
def image_try_value (found : Option PyVal) (d : List (String × PyVal))
    (tk : String) : Except Unit (List (String × PyVal)) :=
  match found with
  | none => .ok d
  | some v =>
      if !pyTruthy v then .ok d
      else if pyIsNA v then .ok d
      else
        match pyLookup d tk with
        | none => .error ()
        | some w => if pyTruthy w then .ok d else .ok (dinsert tk v d)

/-- One step of the nested image pass (`au/drafter_field.py` lines
267-273): condition `image_field in image_extracted and
image_extracted[image_field] and image_extracted[image_field] != "NA" and
not drafter_data["drafter_field"][drafter_field]`, then assignment. This
loop has no per-field `try`, so a raised error propagates (`Except.error`). -/
def image_pass1_step (imageExtracted : PyVal) (d : List (String × PyVal))
    (p : String × String) : Except Unit (List (String × PyVal)) :=
  match pyContains imageExtracted p.2 with
  | .error _ => .error ()
  | .ok false => .ok d
  | .ok true =>
      match pyGetItem imageExtracted p.2 with
      | .error _ => .error ()
      | .ok v => image_try_value (some v) d p.1

/-- The nested image pass over `image_field_mapping`. -/
def image_pass1 (imageExtracted : PyVal) :
    List (String × PyVal) → List (String × String) →
    Except Unit (List (String × PyVal))
  | d, [] => .ok d
  | d, p :: rest =>
      match image_pass1_step imageExtracted d p with
      | .error e => .error e
      | .ok d2 => image_pass1 imageExtracted d2 rest

/-- One step of the top-level image pass (`au/drafter_field.py` lines
285-291): like `image_pass1_step` but reading the image record's top-level
dict items directly. -/
def image_pass2_step (imageItems : List (String × PyVal))
    (d : List (String × PyVal)) (p : String × String) :
    Except Unit (List (String × PyVal)) :=
  image_try_value (pyLookup imageItems p.2) d p.1

/-- The top-level image pass over the (identical) mapping. -/
def image_pass2 (imageItems : List (String × PyVal)) :
    List (String × PyVal) → List (String × String) →
    Except Unit (List (String × PyVal))
  | d, [] => .ok d
  | d, p :: rest =>
      match image_pass2_step imageItems d p with
      | .error e => .error e
      | .ok d2 => image_pass2 imageItems d2 rest

/-- The document phase of `convert_combined_to_drafter_format`: the inner
drafter dict after the document pass (the template when no
`document_analysis` entry is present). -/
def doc_phase (combined : List (String × PyVal)) : List (String × PyVal) :=
  match pyLookup combined "document_analysis" with
  | some doc => doc_pass doc templateFields
  | none => templateFields

/-- The body of `convert_combined_to_drafter_format` inside its outer
`try` (`au/drafter_field.py` lines 181-294), producing the inner drafter
dict: document pass first, then — when `image_analysis` is a dict — the
nested image pass (on its `drafter_field` member, if any) followed by the
top-level image pass. An uncaught Python error is `Except.error`. -/
def convert_inner (combined : List (String × PyVal)) :
    Except Unit (List (String × PyVal)) :=
  let d1 := doc_phase combined
  match pyLookup combined "image_analysis" with
  | none => .ok d1
  | some imageData =>
      match imageData with
      | .vdict imageItems =>
          match pyLookup imageItems "drafter_field" with
          | some imageExtracted =>
              match image_pass1 imageExtracted d1 image_field_mapping with
              | .error e => .error e
              | .ok d2 => image_pass2 imageItems d2 image_field_mapping
          | none => image_pass2 imageItems d1 image_field_mapping
      | _ => .ok d1

/-- `DrafterFieldAutomation.convert_combined_to_drafter_format`
(`au/drafter_field.py` lines 179-298): on any uncaught error the outer
`except` returns the default template. -/
def convert_combined_to_drafter_format (combined : List (String × PyVal)) :
    List (String × PyVal) :=
  match convert_inner combined with
  | .ok inner => [("drafter_field", .vdict inner)]
  | .error _ => get_default_drafter_template

/-- Builds the combined record holding both a document-derived and an
image-derived record, as `load_combined_analysis_data` does when both are
present. -/
def mkCombined (doc img : PyVal) : List (String × PyVal) :=
  [("image_analysis", img), ("document_analysis", doc)]

/-- `DrafterFieldAutomation.load_extracted_data_only` (`au/drafter_field.py`
lines 63-76) as a function of the S3 download result: a truthy downloaded
record is returned, any falsy or absent result falls back to the default
template. -/
def load_extracted_data_only (downloaded : Option PyVal) : PyVal :=
  match downloaded with
  | some v => if pyTruthy v then v else defaultTemplatePy
  | none => defaultTemplatePy

/-- `DrafterFieldAutomation.load_document_analysis_data`
(`au/drafter_field.py` lines 48-60) as a function of the S3 download
result: a truthy record is returned, otherwise `None`. -/
def load_document_analysis_data (downloaded : Option PyVal) : Option PyVal :=
  match downloaded with
  | some v => if pyTruthy v then some v else none
  | none => none

/-- `DrafterFieldAutomation.load_combined_analysis_data`
(`au/drafter_field.py` lines 87-120) as a function of the two S3 download
results: builds `{'image_analysis': ..., 'document_analysis': ...}` from
the truthy parts and falls back to the default template when both are
missing. -/
def load_combined_analysis_data (docDl imgDl : Option PyVal) : PyVal :=
  let imageData := load_extracted_data_only imgDl
  let docData := load_document_analysis_data docDl
  let c1 : List (String × PyVal) :=
    if pyTruthy imageData then dinsert "image_analysis" imageData [] else []
  let c2 : List (String × PyVal) :=
    match docData with
    | some d => if pyTruthy d then dinsert "document_analysis" d c1 else c1
    | none => c1
  if c2.isEmpty then defaultTemplatePy else .vdict c2

/-- Truthiness of an optional looked-up value; `none` (an absent key) is
not "a falsy stored value". Used to state that the image passes write only
into fields whose stored value is blank. -/
def optBlank : Option PyVal → Bool
  | some w => !pyTruthy w
  | none => false

/-- Modelled from the spec: the spec's definition of a blank field ("A
field is blank if its value is empty string, empty list/mapping, or
absent"), used only as the comparison point for the code's
`find_blank_fields`. -/
def spec_blank_field (data : List (String × PyVal)) (k : String) : Bool :=
  match pyLookup data k with
  | some (.vstr s) => s = ""
  | some (.vlist xs) => xs.isEmpty
  | some (.vdict kvs) => kvs.isEmpty
  | some _ => false
  | none => true

/-! ## Workflow State Machine (`au/automate.py`, `au/drafter_field.py`) -/

/-- The ambient Streamlit session state fields the phase logic mutates. -/
structure SessionState where
  automation_phase : String
  automation_status : String
  blank_fields : List String
  automation_started : Bool
  manual_inputs : List (String × String)

/-- A Python return value of `process_drafter_fields` /
`drafter_field_main`: either the literal `False` or a list of blank field
names. -/
inductive PyRet where
  | retFalse
  | retList (l : List String)
deriving DecidableEq

/-- The store/browser side effects `drafter_field_main` attempts, in
order. -/
inductive StoreAction where
  | uploadStartStatus
  | uploadCompletionStatus
  | uploadErrorReport
  | screenshotAttempt
deriving DecidableEq

/-- The injectable outcomes of the collaborator calls made by
`drafter_field_main`: whether each S3 upload succeeds, whether navigation
to the drafter tab succeeds, what `process_drafter_fields` returns, and
whether the final error screenshot succeeds. -/
structure DrafterEnv where
  startUploadOk : Bool
  navSuccess : Bool
  processResult : PyRet
  completionUploadOk : Bool
  errorUploadOk : Bool
  screenshotOk : Bool

/-- The `except Exception` branch of `drafter_field_main`
(`au/drafter_field.py` lines 614-634): it uploads the error report with a
bare `s3_manager.upload_file` call (which re-raises on failure, so a
store-write failure escapes before the screenshot is attempted), then
takes the final screenshot inside `try/except: pass` (swallowed whatever
happens), then returns `False`. `UnifiedLogger.save_logs` in the `finally`
swallows its own failures and is omitted. -/
def drafter_error_branch (env : DrafterEnv) (trace : List StoreAction) :
    Except Unit PyRet × List StoreAction :=
  if env.errorUploadOk then
    (.ok .retFalse, trace ++ [.uploadErrorReport, .screenshotAttempt])
  else
    (.error (), trace ++ [.uploadErrorReport])

/-- `drafter_field_main` (`au/drafter_field.py` lines 563-639): uploads the
start status, navigates, runs `process_drafter_fields` (raising when it
returns `False` or an empty blank list), uploads the completion status and
returns the blank list. Any exception reaches the error branch. The first
component is the Python outcome (`Except.error` = an exception escaping
`drafter_field_main`), the second the attempted side effects. -/
def drafter_field_main (env : DrafterEnv) : Except Unit PyRet × List StoreAction :=
  if !env.startUploadOk then drafter_error_branch env [.uploadStartStatus]
  else if !env.navSuccess then drafter_error_branch env [.uploadStartStatus]
  else
    match env.processResult with
    | .retFalse => drafter_error_branch env [.uploadStartStatus]
    | .retList l =>
        if l.isEmpty then drafter_error_branch env [.uploadStartStatus]
        else if !env.completionUploadOk then
          drafter_error_branch env [.uploadStartStatus, .uploadCompletionStatus]
        else (.ok (.retList l), [.uploadStartStatus, .uploadCompletionStatus])

/-- The checkpoint update `run_initial_automation` performs after
`drafter_field_main` returns (`au/automate.py` lines 678-727): a truthy
result (a non-empty blank list) moves the phase to `waiting_for_input`; a
falsy result (`False` or an empty list) sets the status to `failed`; an
exception is caught by the outer handler (line 721) which also sets the
status to `failed`. -/
def run_initial_after_drafter (r : Except Unit PyRet) (st : SessionState) :
    SessionState :=
  match r with
  | .ok (.retList l) =>
      if !l.isEmpty then
        { st with automation_phase := "waiting_for_input",
                  automation_status := "waiting_for_input",
                  blank_fields := l }
      else { st with automation_status := "failed", automation_started := false }
  | .ok .retFalse =>
      { st with automation_status := "failed", automation_started := false }
  | .error _ =>
      { st with automation_status := "failed", automation_started := false }

/-- The composition of `drafter_field_main` and the checkpoint update of
`run_initial_automation`. -/
def run_initial_drafter_stage (env : DrafterEnv) (st : SessionState) :
    SessionState :=
  run_initial_after_drafter (drafter_field_main env).1 st

/-- A navigation action of the continuing phase. -/
inductive NavAction where
  | gotoUrl (u : String)
  | caseSearch
deriving DecidableEq

/-- The navigation prelude of `continue_automation` (`au/automate.py`
lines 786-798): `if url and url != "None"` try a direct `page.goto(url)`,
falling back to `case_search_main` inside the `except` on failure;
otherwise go straight to case search. `gotoSucceeds` injects the outcome
of the direct navigation attempt. -/
def continue_nav_actions (url : Option String) (gotoSucceeds : Bool) :
    List NavAction :=
  match url with
  | some u =>
      if u = "" then [.caseSearch]
      else if u = "None" then [.caseSearch]
      else if gotoSucceeds then [.gotoUrl u]
      else [.gotoUrl u, .caseSearch]
  | none => [.caseSearch]

/-! ## Human Input Gate (`au/drafter_manual_input.py`, `au/automate.py`) -/

/-- Catalog metadata for one drafter field. -/
structure FieldMeta where
  label : String
  ftype : String
  required : Bool
  category : String
  options : List String

/-- A validated blank-field descriptor (catalog metadata plus its key). -/
structure FieldDesc where
  key : String
  label : String
  ftype : String
  required : Bool
  category : String
  options : List String

/-- First-match lookup in a metadata association list. -/
def lookupMeta (kvs : List (String × FieldMeta)) (k : String) : Option FieldMeta :=
  match kvs with
  | [] => none
  | (k2, v) :: rest => if k2 = k then some v else lookupMeta rest k

/-- Dict insertion for metadata association lists (Python semantics:
update in place when present, append otherwise). -/
def minsert (k : String) (v : FieldMeta) (kvs : List (String × FieldMeta)) :
    List (String × FieldMeta) :=
  match kvs with
  | [] => [(k, v)]
  | (k2, w) :: rest =>
      if k2 = k then (k2, v) :: rest else (k2, w) :: minsert k v rest

/-- The entries of the dict literal in
`DrafterManualInputAssistant.get_all_drafter_fields`
(`au/drafter_manual_input.py` lines 25-286), in source order. The literal
repeats the keys "Class of Locality" and "Property usage" (once under
Property Condition, once under Locality Information), and the options of
"Any Negative Locality" contain the element "chemical hazardsWaste Dump
Site" produced by Python adjacent-string-literal concatenation. -/
def get_all_drafter_fields_entries : List (String × FieldMeta) :=
  [("Document Provided for Valuation",
    ⟨"Document Provided for Valuation", "text", true, "General", []⟩),
   ("Property situated",
    ⟨"Property situated", "dropdown", true, "General",
     ["Metro", "Urban", "Semi Urban or Rural (G P Limit)", "City Limit",
      "Development Authority Limit", "MC Limit", "GP Limit",
      "Nagar Panchayat Limit", "Nagar Palika/Parishad/Nigam Limit",
      "Outside MC Limits", "Lal dora", "Rural"]⟩),
   ("Type of Property As per document",
    ⟨"Type of Property As per document", "dropdown", true, "General",
     ["Residential", "Commercial", "Non Converted", "Industrial", "Mix Uses"]⟩),
   ("Status of holding",
    ⟨"Status of holding", "dropdown", true, "General",
     ["Free Hold", "Lease Hold"]⟩),
   ("Doc address match as per actual address",
    ⟨"Doc address match as per actual address", "dropdown", false,
     "Property Condition", ["Yes", "No"]⟩),
   ("Flats(on each floor)",
    ⟨"Flats(on each floor)", "text", true, "Property Condition", []⟩),
   ("Class of Locality",
    ⟨"Class of Locality", "dropdown", true, "Property Condition",
     ["High", "Middle", "Low", "Urban", "Mixed", "Rural", "Semi Urban",
      "Residential", "Commercial", "Industrial", "Agriculture & Mixed"]⟩),
   ("Property usage",
    ⟨"Property usage", "dropdown", false, "Property Condition",
     ["Commercial office", "Commercial shop", "Complete Commercial",
      "Vacant land", "Residential", "Industrial", "Mix Uses",
      "Non Converted", "Plot", "Under Construction", "Other"]⟩),
   ("Occupancy percent",
    ⟨"Occupancy percent", "text", false, "Property Condition", []⟩),
   ("Residual age of Property (years)",
    ⟨"Residual age of Property (years)", "text", false, "Property Condition", []⟩),
   ("Request From/Allocated By",
    ⟨"Request From/Allocated By", "text", false, "Property Condition", []⟩),
   ("Plot No/House No",
    ⟨"Plot No/House No", "text", false, "Documented Address", []⟩),
   ("Floor No.",
    ⟨"Floor No.", "text", false, "Documented Address", []⟩),
   ("Building/Wing Name",
    ⟨"Building/Wing Name", "text", false, "Documented Address", []⟩),
   ("Street No./Road Name",
    ⟨"Street No./Road Name", "text", false, "Documented Address", []⟩),
   ("Scheme Name",
    ⟨"Scheme Name", "text", false, "Documented Address", []⟩),
   ("Village/City",
    ⟨"Village/City", "text", false, "Documented Address", []⟩),
   ("Pincode",
    ⟨"Pincode", "text", false, "Documented Address", []⟩),
   ("Locality",
    ⟨"Locality", "text", false, "Documented Address", []⟩),
   ("Address as per Identifier Docs",
    ⟨"Address as per Identifier Docs", "text", false, "Documented Address", []⟩),
   ("Class of Locality",
    ⟨"Class of Locality", "dropdown", true, "Locality Information",
     ["High", "Middle", "Low", "Urban", "Mixed", "Rural", "Semi Urban",
      "Residential", "Commercial", "Industrial", "Agriculture & Mixed"]⟩),
   ("Property usage",
    ⟨"Property usage", "dropdown", false, "Locality Information",
     ["Commercial office", "Commercial shop", "Complete Commercial",
      "Vacant land", "Residential", "Industrial", "Mix Uses",
      "Non Converted", "Plot", "Under Construction", "Other"]⟩),
   ("Any Negative Locality",
    ⟨"Any Negative Locality", "dropdown", true, "Locality Information",
     ["Crematoriums", "Slums", "gases", "Mining site", "riot prone",
      "High Tension Lines", "chemical hazardsWaste Dump Site", "No"]⟩),
   ("Location- As per DLC Portal",
    ⟨"Location- As per DLC Portal", "text", false, "Locality Information", []⟩),
   ("East - As Per Document(Boundary)",
    ⟨"East - As Per Document(Boundary)", "text", true, "Boundary", []⟩),
   ("West - As Per Document(Boundary)",
    ⟨"West - As Per Document(Boundary)", "text", true, "Boundary", []⟩),
   ("North - As per Document(Boundary)",
    ⟨"North - As per Document(Boundary)", "text", true, "Boundary", []⟩),
   ("south - As per Document(Boundary)",
    ⟨"south - As per Document(Boundary)", "text", true, "Boundary", []⟩),
   ("Basic amenities available? (Water, Road)",
    ⟨"Basic amenities available? (Water, Road)", "dropdown", true, "Boundary",
     ["Yes", "No"]⟩),
   ("Maintenance Levels",
    ⟨"Maintenance Levels", "text", false, "Boundary", []⟩),
   ("Deviation For AU-Remark",
    ⟨"Deviation For AU-Remark", "text", false, "Boundary", []⟩),
   ("Unit for Dimension (Doc)",
    ⟨"Unit for Dimension (Doc)", "dropdown", true, "Dimension", ["ft", "mt"]⟩),
   ("East - As per Docs(Dimension)",
    ⟨"East - As per Docs(Dimension)", "text", true, "Dimension", []⟩),
   ("West - As per Docs(Dimension)",
    ⟨"West - As per Docs(Dimension)", "text", true, "Dimension", []⟩),
   ("North - As per Docs(Dimension)",
    ⟨"North - As per Docs(Dimension)", "text", true, "Dimension", []⟩),
   ("South - As per Docs(Dimension)",
    ⟨"South - As per Docs(Dimension)", "text", true, "Dimension", []⟩),
   ("Setbacks As per Rule-Front",
    ⟨"Setbacks As per Rule-Front", "text", true, "Dimension", []⟩),
   ("Setbacks As per Rule-Back",
    ⟨"Setbacks As per Rule-Back", "text", true, "Dimension", []⟩),
   ("Setbacks As per Rule-Side 1",
    ⟨"Setbacks As per Rule-Side 1", "text", true, "Dimension", []⟩),
   ("Setbacks As per Rule-Side 2",
    ⟨"Setbacks As per Rule-Side 2", "text", true, "Dimension", []⟩)]

/-- `get_all_drafter_fields`: the effective dict the literal builds
(successive insertion, so a repeated key keeps its first position and its
last value). -/
def get_all_drafter_fields : List (String × FieldMeta) :=
  get_all_drafter_fields_entries.foldl (fun acc p => minsert p.1 p.2 acc) []

/-- `DrafterManualInputAssistant.validate_and_transform_empty_fields`
(`au/drafter_manual_input.py` lines 288-316) for the workflow's string
blank-field lists: each known key is mapped to its catalog metadata,
unknown keys are logged and dropped. (Entries that are already
well-formed descriptor dicts pass through unchanged in the source; the
workflow only produces string lists.) -/
def validate_and_transform_empty_fields (emptyFields : List String) :
    List FieldDesc :=
  emptyFields.filterMap (fun k =>
    (lookupMeta get_all_drafter_fields k).map (fun m =>
      ⟨k, m.label, m.ftype, m.required, m.category, m.options⟩))

/-- First-match lookup for the manual-input mapping. -/
def strLookup (kvs : List (String × String)) (k : String) : Option String :=
  match kvs with
  | [] => none
  | (k2, v) :: rest => if k2 = k then some v else strLookup rest k

/-- The `missing_required` list built by the manual-input form submission
handler (`au/automate.py` lines 1082-1085): labels of required descriptors
whose submitted value strips to empty (`manual_inputs.get(key, '')`). -/
def missing_required (validated : List FieldDesc)
    (inputs : List (String × String)) : List String :=
  (validated.filter (fun f =>
    f.required && pyStrip ((strLookup inputs f.key).getD "") = "")).map
    (fun f => f.label)

/-- The submission handler of `manual_input_form` (`au/automate.py` lines
1080-1096): a non-empty `missing_required` list rejects the submission and
leaves the session state untouched; otherwise the manual inputs are
stored and the checkpoint moves to phase `continuing`, status `running`. -/
def submit_manual_input (validated : List FieldDesc)
    (inputs : List (String × String)) (st : SessionState) : SessionState :=
  if !(missing_required validated inputs).isEmpty then st
  else
    { st with manual_inputs := inputs,
              automation_phase := "continuing",
              automation_status := "running" }

/-! ## Case-Scoped Durable Store (`static/unified_s3_manager.py`) -/

/-- The S3 state the namespace allocator observes: the set of case folder
names that already contain at least one object, and whether the store can
be reached (an unreachable store makes `list_objects_v2` raise). -/
structure Store where
  folders : List String
  reachable : Bool

/-- A character allowed by the sanitizer's character class
`[a-zA-Z0-9\-_]`. -/
def allowedChar (c : Char) : Bool :=
  c.isAlpha || c.isDigit || c = '-' || c = '_'

/-- Collapse every run of underscores to a single underscore
(`re.sub(r'_+', '_', ...)`). -/
def collapseUnderscores : List Char → List Char
  | [] => []
  | c :: rest =>
      let r := collapseUnderscores rest
      if c = '_' then
        match r with
        | '_' :: _ => r
        | _ => c :: r
      else c :: r

/-- `UnifiedS3Manager._clean_case_number` (`static/unified_s3_manager.py`
lines 75-84): replace disallowed characters by underscores, collapse runs
of underscores, strip leading/trailing underscores, default to
"UNKNOWN_CASE" when empty. -/
def clean_case_number (caseNumber : String) : String :=
  let step1 := caseNumber.toList.map (fun c => if allowedChar c then c else '_')
  let step2 := collapseUnderscores step1
  let step3 := ((step2.dropWhile (fun c => c = '_')).reverse.dropWhile
    (fun c => c = '_')).reverse
  if step3.isEmpty then "UNKNOWN_CASE" else step3.asString

/-- `UnifiedS3Manager._case_folder_exists` (`static/unified_s3_manager.py`
lines 86-98): probes for objects under `cases/{folder}/`; an exception
from the probe (unreachable store) is caught here and reported as `False`. -/
def case_folder_exists (st : Store) (folderName : String) : Bool :=
  if st.reachable then st.folders.contains folderName else false

/-- The n-th namespace candidate of the allocation loop: the sanitized
token itself, then `{token}_{n}`. -/
def folderCandidate (clean : String) (n : Nat) : String :=
  if n = 0 then clean else clean ++ "_" ++ Nat.repr n

/-- The `while self._case_folder_exists(base_folder)` loop of
`_generate_unique_case_folder` (`static/unified_s3_manager.py` lines
59-64). The Python loop stops at the first unused candidate; the fuel is a
termination bound only and `|folders| + 1` probes always suffice because
the candidates are pairwise distinct strings. -/
def gen_loop (st : Store) (clean : String) : Nat → Nat → String
  | 0, counter => folderCandidate clean counter
  | fuel + 1, counter =>
      if case_folder_exists st (folderCandidate clean counter) then
        gen_loop st clean fuel (counter + 1)
      else folderCandidate clean counter

/-- `UnifiedS3Manager._generate_unique_case_folder`
(`static/unified_s3_manager.py` lines 52-73). The `try` body cannot raise:
`_case_folder_exists` swallows its own exceptions, so the `except` branch
returning a timestamp-suffixed folder is dead code; it is kept in the
model to mirror the source. -/
def generate_unique_case_folder (st : Store) (caseNumber timestamp : String) :
    String :=
  let body : Except Unit String :=
    .ok (gen_loop st (clean_case_number caseNumber) (st.folders.length + 1) 0)
  match body with
  | .ok s => s
  | .error _ => clean_case_number caseNumber ++ "_" ++ timestamp

/-- The body of a fetched S3 object, as seen by the JSON parser. -/
inductive JsonBody where
  | malformed
  | wellFormed (v : PyVal)

/-- The outcome of the `get_object` call inside `download_json`. -/
inductive GetObjectResult where
  | noSuchKey
  | transportError
  | okBody (b : JsonBody)

/-- The exceptions the body of `download_json` can raise. -/
inductive DownloadError where
  | noSuchKeyExc
  | otherExc

/-- The `try` body of `UnifiedS3Manager.download_json`
(`static/unified_s3_manager.py` lines 241-255): fetch the object and parse
it; a missing key raises `NoSuchKey`, any transport fault or malformed
JSON raises some other exception. -/
def download_json_body (r : GetObjectResult) : Except DownloadError PyVal :=
  match r with
  | .noSuchKey => .error .noSuchKeyExc
  | .transportError => .error .otherExc
  | .okBody .malformed => .error .otherExc
  | .okBody (.wellFormed v) => .ok v

/-- `UnifiedS3Manager.download_json` (`static/unified_s3_manager.py` lines
239-262) with its two handlers: `except NoSuchKey: return None` and
`except Exception: return None`. The `Except Empty` result type records
that no exception can escape. -/
def download_json (r : GetObjectResult) : Except Empty (Option PyVal) :=
  match download_json_body r with
  | .ok v => .ok (some v)
  | .error .noSuchKeyExc => .ok none
  | .error .otherExc => .ok none

/-! ## Concrete records used to instantiate the merge theorems -/

/-- A document-derived record carrying a holding status. -/
def sampleDocRecord : PyVal := .vdict [("Holding_status", .vstr "Lease Hold")]

/-- An image-derived record carrying a flat count and a locality class in
its nested `drafter_field` member. -/
def sampleImgRecord : PyVal :=
  .vdict [("drafter_field",
    .vdict [("FlatOnEachFloor", .vstr "2"), ("ClassOfLocality", .vstr "High")])]

/-- The merged inner drafter dict for the sample records. -/
def sampleMergedInner : List (String × PyVal) :=
  (convert_inner (mkCombined sampleDocRecord sampleImgRecord)).toOption.getD []

/-! ## Helper lemmas -/

lemma pyLookup_dinsert (k : String) (v : PyVal) :
    ∀ (d : List (String × PyVal)) (k2 : String),
      pyLookup (dinsert k v d) k2 = if k = k2 then some v else pyLookup d k2 := by
  intro d
  induction d with
  | nil =>
      intro k2
      simp only [dinsert, pyLookup]
  | cons hd tl ih =>
      intro k2
      obtain ⟨k3, w⟩ := hd
      simp only [dinsert]
      by_cases h3 : k3 = k
      · rw [if_pos h3]
        subst h3
        simp only [pyLookup]
        by_cases h : k3 = k2
        · simp [h]
        · simp [h]
      · rw [if_neg h3]
        simp only [pyLookup, ih k2]
        by_cases h2 : k3 = k2
        · have hk : ¬k = k2 := fun hh => h3 (h2.trans hh.symm)
          simp [h2, hk]
        · simp [h2]

lemma pyLookup_mem {d : List (String × PyVal)} {k : String} {v : PyVal}
    (h : pyLookup d k = some v) : (k, v) ∈ d := by
  induction d with
  | nil => simp [pyLookup] at h
  | cons hd tl ih =>
      obtain ⟨k2, w⟩ := hd
      simp only [pyLookup] at h
      by_cases h2 : k2 = k
      · subst h2
        simp only [if_pos rfl] at h
        cases h
        exact List.mem_cons_self _ _
      · rw [if_neg h2] at h
        exact List.mem_cons_of_mem _ (ih h)

lemma pyLookup_of_mem_nodup {d : List (String × PyVal)} {k : String} {v : PyVal}
    (hnd : (d.map Prod.fst).Nodup) (h : (k, v) ∈ d) : pyLookup d k = some v := by
  induction d with
  | nil => simp at h
  | cons hd tl ih =>
      obtain ⟨k2, w⟩ := hd
      simp only [List.map_cons, List.nodup_cons] at hnd
      rcases List.mem_cons.mp h with h1 | h1
      · cases h1
        simp [pyLookup]
      · have hk : k2 ≠ k := by
          intro hh
          subst hh
          exact hnd.1 (List.mem_map.mpr ⟨(k2, v), h1, rfl⟩)
        simp only [pyLookup, if_neg hk]
        exact ih hnd.2 h1

lemma effect_trans {d1 dmid d2 : List (String × PyVal)} {T : List String}
    {k : String}
    (h1 : pyLookup dmid k = pyLookup d1 k ∨
      (k ∈ T ∧ optBlank (pyLookup d1 k) = true))
    (h2 : pyLookup d2 k = pyLookup dmid k ∨
      (k ∈ T ∧ optBlank (pyLookup dmid k) = true)) :
    pyLookup d2 k = pyLookup d1 k ∨
      (k ∈ T ∧ optBlank (pyLookup d1 k) = true) := by
  rcases h2 with h2 | ⟨hT, hb⟩
  · rcases h1 with h1 | h1
    · exact Or.inl (h2.trans h1)
    · exact Or.inr h1
  · rcases h1 with h1 | h1
    · exact Or.inr ⟨hT, h1 ▸ hb⟩
    · exact Or.inr h1

lemma image_try_value_effect {found : Option PyVal}
    {d d2 : List (String × PyVal)} {tk : String}
    (h : image_try_value found d tk = .ok d2) (k : String) :
    pyLookup d2 k = pyLookup d k ∨
      (tk = k ∧ optBlank (pyLookup d k) = true) := by
  unfold image_try_value at h
  split at h
  · cases h
    exact Or.inl rfl
  · split at h
    · cases h
      exact Or.inl rfl
    · split at h
      · cases h
        exact Or.inl rfl
      · split at h
        · cases h
        · split at h
          · cases h
            exact Or.inl rfl
          · cases h
            rename_i v _ _ w hw hwt
            rw [pyLookup_dinsert]
            by_cases hk : tk = k
            · subst hk
              refine Or.inr ⟨rfl, ?_⟩
              rw [hw]
              simp only [optBlank]
              simp [Bool.not_eq_true] at hwt
              simp [hwt]
            · rw [if_neg hk]
              exact Or.inl rfl

lemma image_pass1_step_effect {ie : PyVal} {d d2 : List (String × PyVal)}
    {p : String × String} (h : image_pass1_step ie d p = .ok d2) (k : String) :
    pyLookup d2 k = pyLookup d k ∨
      (p.1 = k ∧ optBlank (pyLookup d k) = true) := by
  unfold image_pass1_step at h
  split at h
  · cases h
  · cases h
    exact Or.inl rfl
  · split at h
    · cases h
    · exact image_try_value_effect h k

lemma image_pass1_effect {ie : PyVal} :
    ∀ (l : List (String × String)) (d d2 : List (String × PyVal)),
      image_pass1 ie d l = .ok d2 →
      ∀ k, pyLookup d2 k = pyLookup d k ∨
        (k ∈ l.map Prod.fst ∧ optBlank (pyLookup d k) = true) := by
  intro l
  induction l with
  | nil =>
      intro d d2 h k
      cases h
      exact Or.inl rfl
  | cons p rest ih =>
      intro d d2 h k
      simp only [image_pass1] at h
      rcases hs : image_pass1_step ie d p with e | dmid
      · rw [hs] at h; cases h
      · rw [hs] at h
        have h1 := image_pass1_step_effect hs k
        have h2 := ih dmid d2 h k
        have h1' : pyLookup dmid k = pyLookup d k ∨
            (k ∈ (p :: rest).map Prod.fst ∧ optBlank (pyLookup d k) = true) := by
          rcases h1 with h1 | ⟨hp, hb⟩
          · exact Or.inl h1
          · exact Or.inr ⟨by simp [hp.symm], hb⟩
        have h2' : pyLookup d2 k = pyLookup dmid k ∨
            (k ∈ (p :: rest).map Prod.fst ∧ optBlank (pyLookup dmid k) = true) := by
          rcases h2 with h2 | ⟨hp, hb⟩
          · exact Or.inl h2
          · exact Or.inr ⟨by simp [List.mem_map] at hp ⊢; tauto, hb⟩
        exact effect_trans h1' h2'

lemma image_pass2_step_effect {items : List (String × PyVal)}
    {d d2 : List (String × PyVal)} {p : String × String}
    (h : image_pass2_step items d p = .ok d2) (k : String) :
    pyLookup d2 k = pyLookup d k ∨
      (p.1 = k ∧ optBlank (pyLookup d k) = true) := by
  unfold image_pass2_step at h
  exact image_try_value_effect h k

lemma image_pass2_effect {items : List (String × PyVal)} :
    ∀ (l : List (String × String)) (d d2 : List (String × PyVal)),
      image_pass2 items d l = .ok d2 →
      ∀ k, pyLookup d2 k = pyLookup d k ∨
        (k ∈ l.map Prod.fst ∧ optBlank (pyLookup d k) = true) := by
  intro l
  induction l with
  | nil =>
      intro d d2 h k
      cases h
      exact Or.inl rfl
  | cons p rest ih =>
      intro d d2 h k
      simp only [image_pass2] at h
      rcases hs : image_pass2_step items d p with e | dmid
      · rw [hs] at h; cases h
      · rw [hs] at h
        have h1 := image_pass2_step_effect hs k
        have h2 := ih dmid d2 h k
        have h1' : pyLookup dmid k = pyLookup d k ∨
            (k ∈ (p :: rest).map Prod.fst ∧ optBlank (pyLookup d k) = true) := by
          rcases h1 with h1 | ⟨hp, hb⟩
          · exact Or.inl h1
          · exact Or.inr ⟨by simp [hp.symm], hb⟩
        have h2' : pyLookup d2 k = pyLookup dmid k ∨
            (k ∈ (p :: rest).map Prod.fst ∧ optBlank (pyLookup dmid k) = true) := by
          rcases h2 with h2 | ⟨hp, hb⟩
          · exact Or.inl h2
          · exact Or.inr ⟨by simp [List.mem_map] at hp ⊢; tauto, hb⟩
        exact effect_trans h1' h2'

lemma convert_inner_effect {combined d2 : List (String × PyVal)}
    (h : convert_inner combined = .ok d2) (k : String) :
    pyLookup d2 k = pyLookup (doc_phase combined) k ∨
      (k ∈ image_field_mapping.map Prod.fst ∧
        optBlank (pyLookup (doc_phase combined) k) = true) := by
  rcases hi : pyLookup combined "image_analysis" with _ | imageData
  · simp only [convert_inner, hi] at h
    cases h
    exact Or.inl rfl
  · cases imageData with
    | vdict items =>
        rcases hd : pyLookup items "drafter_field" with _ | ie
        · simp only [convert_inner, hi, hd] at h
          exact image_pass2_effect image_field_mapping _ _ h k
        · simp only [convert_inner, hi, hd] at h
          rcases hp1 : image_pass1 ie (doc_phase combined) image_field_mapping
            with e | dmid
          · rw [hp1] at h; cases h
          · rw [hp1] at h
            exact effect_trans (image_pass1_effect _ _ _ hp1 k)
              (image_pass2_effect _ _ _ h k)
    | vstr s => simp only [convert_inner, hi] at h; cases h; exact Or.inl rfl
    | vint n => simp only [convert_inner, hi] at h; cases h; exact Or.inl rfl
    | vbool b => simp only [convert_inner, hi] at h; cases h; exact Or.inl rfl
    | vnull => simp only [convert_inner, hi] at h; cases h; exact Or.inl rfl
    | vlist xs => simp only [convert_inner, hi] at h; cases h; exact Or.inl rfl

lemma doc_foldl_preserve (doc : PyVal) :
    ∀ (l : List (String × String)) (d : List (String × PyVal)) (k : String),
      k ∉ l.map Prod.fst →
      pyLookup (l.foldl (doc_step doc) d) k = pyLookup d k := by
  intro l
  induction l with
  | nil => intro d k _; rfl
  | cons p rest ih =>
      intro d k hk
      simp only [List.map_cons, List.mem_cons, not_or] at hk
      simp only [List.foldl_cons]
      rw [ih _ k hk.2]
      unfold doc_step
      rcases doc_assign doc p.2 with _ | v
      · rfl
      · rw [pyLookup_dinsert]
        exact if_neg (fun hh => hk.1 hh.symm)

lemma doc_foldl_lookup (doc : PyVal) :
    ∀ (l : List (String × String)) (d : List (String × PyVal))
      (tk df : String),
      (l.map Prod.fst).Nodup → (tk, df) ∈ l →
      pyLookup (l.foldl (doc_step doc) d) tk =
        (match doc_assign doc df with
         | some v => some v
         | none => pyLookup d tk) := by
  intro l
  induction l with
  | nil => intro d tk df _ hm; simp at hm
  | cons p rest ih =>
      intro d tk df hnd hm
      simp only [List.map_cons, List.nodup_cons] at hnd
      rcases List.mem_cons.mp hm with h1 | h1
      · cases h1
        simp only [List.foldl_cons]
        rw [doc_foldl_preserve doc rest _ tk hnd.1]
        unfold doc_step
        cases hx : doc_assign doc df with
        | none => rfl
        | some v => rw [pyLookup_dinsert, if_pos rfl]
      · have htk : tk ∈ rest.map Prod.fst :=
          List.mem_map.mpr ⟨(tk, df), h1, rfl⟩
        have hne : p.1 ≠ tk := fun hh => hnd.1 (hh ▸ htk)
        simp only [List.foldl_cons]
        rw [ih _ tk df hnd.2 h1]
        cases hx : doc_assign doc df with
        | some v => rfl
        | none =>
            unfold doc_step
            cases hy : doc_assign doc p.2 with
            | none => rfl
            | some w => rw [pyLookup_dinsert, if_neg hne]

lemma gen_loop_candidate (st : Store) (clean : String) :
    ∀ (fuel counter : Nat), ∃ n,
      gen_loop st clean fuel counter = folderCandidate clean n := by
  intro fuel
  induction fuel with
  | zero => intro counter; exact ⟨counter, rfl⟩
  | succ fuel ih =>
      intro counter
      unfold gen_loop
      by_cases hx : case_folder_exists st (folderCandidate clean counter)
      · rw [if_pos hx]
        exact ih (counter + 1)
      · rw [if_neg hx]
        exact ⟨counter, rfl⟩

/-! ## Claim theorems -/

/-- C2: `_generate_unique_case_folder` sanitizes the case id into a
path-safe token and, when the Store already contains that token's
namespace, appends an incrementing numeric suffix until an unused
namespace is found; for case id "T-0000045703" with no prior namespace it
returns "T-0000045703", with that namespace present it returns
"T-0000045703_1" (and with both present "T-0000045703_2"), so two
successive allocations yield distinct namespaces differing only by a
numeric suffix. -/
theorem namespace_allocation_increments_suffix :
    clean_case_number "T-0000045703" = "T-0000045703" ∧
    clean_case_number "T 0000045703!!" = "T_0000045703" ∧
    generate_unique_case_folder ⟨[], true⟩ "T-0000045703" "20250101_000000" =
      "T-0000045703" ∧
    generate_unique_case_folder ⟨["T-0000045703"], true⟩ "T-0000045703"
      "20250101_000000" = "T-0000045703_1" ∧
    generate_unique_case_folder ⟨["T-0000045703", "T-0000045703_1"], true⟩
      "T-0000045703" "20250101_000000" = "T-0000045703_2" ∧
    ("T-0000045703" : String) ≠ "T-0000045703_1" ∧
    (∀ (st : Store) (c ts : String),
      generate_unique_case_folder st c ts = clean_case_number c ∨
      ∃ n, 0 < n ∧ generate_unique_case_folder st c ts =
        clean_case_number c ++ "_" ++ Nat.repr n) := by
  refine ⟨by decide, by decide, by decide, by decide, by decide, by decide, ?_⟩
  intro st c ts
  obtain ⟨n, hn⟩ :=
    gen_loop_candidate st (clean_case_number c) (st.folders.length + 1) 0
  have hg : generate_unique_case_folder st c ts =
      folderCandidate (clean_case_number c) n := hn
  cases n with
  | zero => exact Or.inl hg
  | succ m =>
      refine Or.inr ⟨m + 1, Nat.succ_pos m, ?_⟩
      rw [hg]
      unfold folderCandidate
      rw [if_neg (Nat.succ_ne_zero m)]

/-- C7 counterexample: with an unreachable store (every probe raises,
which `_case_folder_exists` catches and reports as "not found") that in
fact already holds the namespace "T-0000045703", allocation for case id
"T-0000045703" returns the bare sanitized token — not a
timestamp-suffixed namespace as the claim states. -/
theorem probe_failure_counterexample :
    generate_unique_case_folder ⟨["T-0000045703"], false⟩ "T-0000045703"
      "20250101_000000" = "T-0000045703" ∧
    ("T-0000045703" : String) ≠
      clean_case_number "T-0000045703" ++ "_" ++ "20250101_000000" := by
  exact ⟨by decide, by decide⟩

/-- C7 amended: if the Store existence probe fails (store unreachable),
the failure is swallowed inside `_case_folder_exists`, which reports the
namespace as unused; allocation therefore returns the bare sanitized
token with no suffix at all (the timestamp fallback of
`_generate_unique_case_folder` is unreachable for probe failures), and no
failure propagates to abort the run. -/
theorem probe_failure_returns_bare_token :
    ∀ (st : Store) (c ts : String), st.reachable = false →
      generate_unique_case_folder st c ts = clean_case_number c := by
  intro st c ts h
  unfold generate_unique_case_folder gen_loop
  rw [show case_folder_exists st (folderCandidate (clean_case_number c) 0) =
      false by simp [case_folder_exists, h]]
  simp [folderCandidate]

/-- C7 amended witness: instantiated at an unreachable store holding an
unrelated namespace. -/
theorem probe_failure_returns_bare_token_witness :
    generate_unique_case_folder ⟨["OTHER-CASE"], false⟩ "T-0000045703"
      "20250101_000000" = "T-0000045703" := by
  have h := probe_failure_returns_bare_token ⟨["OTHER-CASE"], false⟩
    "T-0000045703" "20250101_000000" rfl
  rw [h]
  decide

/-- C10: `download_json` never raises to its caller: every outcome of the
body is handled, it returns `None` on a missing key, on a transport error
and on malformed JSON alike (so absence and store faults are
indistinguishable), and returns the parsed record on success. -/
theorem download_json_total_and_none_on_failure :
    (∀ r, ∃ o, download_json r = .ok o) ∧
    download_json .noSuchKey = .ok none ∧
    download_json .transportError = .ok none ∧
    download_json (.okBody .malformed) = .ok none ∧
    (∀ v, download_json (.okBody (.wellFormed v)) = .ok (some v)) ∧
    download_json .noSuchKey = download_json .transportError := by
  refine ⟨?_, rfl, rfl, rfl, fun v => rfl, rfl⟩
  intro r
  rcases r with _ | _ | b
  · exact ⟨none, rfl⟩
  · exact ⟨none, rfl⟩
  · cases b with
    | malformed => exact ⟨none, rfl⟩
    | wellFormed v => exact ⟨some v, rfl⟩

/-- C5: when the continuing phase starts with a saved usable navigation
location it first attempts direct navigation there, falling back to full
case-search navigation on navigation failure instead of aborting; with no
saved location it goes straight to case search. -/
theorem continuing_navigation_fallback :
    (∀ (u : String) (g : Bool), u ≠ "" → u ≠ "None" →
      (continue_nav_actions (some u) g).head? = some (.gotoUrl u) ∧
      (g = false →
        continue_nav_actions (some u) g = [.gotoUrl u, .caseSearch]) ∧
      (g = true → continue_nav_actions (some u) g = [.gotoUrl u])) ∧
    (∀ g, continue_nav_actions none g = [.caseSearch]) := by
  constructor
  · intro u g h1 h2
    simp only [continue_nav_actions]
    rw [if_neg h1, if_neg h2]
    cases g
    · refine ⟨rfl, fun _ => rfl, fun h => ?_⟩
      exact absurd h (by decide)
    · refine ⟨rfl, fun h => ?_, fun _ => rfl⟩
      exact absurd h (by decide)
  · intro g
    rfl

/-- C5 witness: a concrete saved location with a failing direct
navigation attempt. -/
theorem continuing_navigation_fallback_witness :
    (continue_nav_actions (some "https://sf.example/case/123") false).head? =
      some (.gotoUrl "https://sf.example/case/123") ∧
    continue_nav_actions (some "https://sf.example/case/123") false =
      [.gotoUrl "https://sf.example/case/123", .caseSearch] := by
  have h := continuing_navigation_fallback.1 "https://sf.example/case/123"
    false (by decide) (by decide)
  exact ⟨h.1, h.2.1 rfl⟩

/-- C3: in the initial phase, when the drafter automation completes with
an empty blank-field list, `drafter_field_main` raises on the empty list
and returns `False`, and the checkpoint status is set to `failed` with the
phase left at `initial` (no auto-advance to `waiting_for_input` or
`continuing`); only a non-empty blank-field list transitions to
`waiting_for_input`. -/
theorem initial_phase_empty_blank_list_soft_failure :
    ∀ (st : SessionState) (l : List String), st.automation_phase = "initial" →
      ((drafter_field_main ⟨true, true, .retList [], true, true, true⟩).1 =
        .ok .retFalse ∧
       (run_initial_drafter_stage ⟨true, true, .retList [], true, true, true⟩
         st).automation_status = "failed" ∧
       (run_initial_drafter_stage ⟨true, true, .retList [], true, true, true⟩
         st).automation_phase = "initial") ∧
      (l ≠ [] →
       (run_initial_drafter_stage ⟨true, true, .retList l, true, true, true⟩
         st).automation_phase = "waiting_for_input" ∧
       (run_initial_drafter_stage ⟨true, true, .retList l, true, true, true⟩
         st).automation_status = "waiting_for_input") := by
  intro st l hphase
  constructor
  · exact ⟨rfl, rfl, hphase⟩
  · intro hl
    have hE : l.isEmpty = false := by
      cases l
      · exact absurd rfl hl
      · rfl
    constructor
    · simp [run_initial_drafter_stage, drafter_field_main,
        run_initial_after_drafter, hE]
    · simp [run_initial_drafter_stage, drafter_field_main,
        run_initial_after_drafter, hE]

/-- C3 witness: a concrete initial-phase session state, with the empty
and the singleton blank list. -/
theorem initial_phase_empty_blank_list_soft_failure_witness :
    (run_initial_drafter_stage ⟨true, true, .retList [], true, true, true⟩
      ⟨"initial", "running", [], true, []⟩).automation_status = "failed" ∧
    (run_initial_drafter_stage ⟨true, true, .retList ["Pincode"], true, true,
      true⟩ ⟨"initial", "running", [], true, []⟩).automation_phase =
      "waiting_for_input" := by
  have h := initial_phase_empty_blank_list_soft_failure
    ⟨"initial", "running", [], true, []⟩ ["Pincode"] rfl
  exact ⟨h.1.2.1, (h.2 (by decide)).1⟩

/-- C8 counterexample: on a failed transition (navigation failure) where
the error-report upload itself hits a store-write failure,
`drafter_field_main` does not return its failure result — the store-write
exception raised while reporting propagates out of it, and the final
screenshot is never attempted. -/
theorem failure_report_store_error_counterexample :
    (drafter_field_main ⟨true, false, .retFalse, true, false, true⟩).1 =
      .error () ∧
    (drafter_field_main ⟨true, false, .retFalse, true, false, true⟩).1 ≠
      .ok .retFalse ∧
    (drafter_field_main ⟨true, false, .retFalse, true, false, true⟩).2 =
      [.uploadStartStatus, .uploadErrorReport] := by
  refine ⟨rfl, ?_, rfl⟩
  intro h
  exact nomatch h

/-- C8 amended: on a failed transition the state machine attempts the
best-effort error-report upload; when that upload succeeds it also
attempts the screenshot (whose own failure is swallowed) and
`drafter_field_main` returns its failure result; but a store-write
failure during the error-report upload raises past `drafter_field_main`
instead of being swallowed, skipping the screenshot. -/
theorem failed_transition_error_reporting :
    ∀ (env : DrafterEnv), env.navSuccess = false →
      StoreAction.uploadErrorReport ∈ (drafter_field_main env).2 ∧
      (env.errorUploadOk = true →
        (drafter_field_main env).1 = .ok .retFalse ∧
        StoreAction.screenshotAttempt ∈ (drafter_field_main env).2) ∧
      (env.errorUploadOk = false →
        (drafter_field_main env).1 = .error () ∧
        StoreAction.screenshotAttempt ∉ (drafter_field_main env).2) := by
  intro env hnav
  obtain ⟨su, nv, pr, cu, eu, sc⟩ := env
  cases hnav
  cases su <;> cases eu <;>
    simp [drafter_field_main, drafter_error_branch]

/-- C8 amended witness: a concrete failing environment whose error-report
upload succeeds but whose screenshot fails. -/
theorem failed_transition_error_reporting_witness :
    (drafter_field_main ⟨true, false, .retFalse, true, true, false⟩).1 =
      .ok .retFalse ∧
    StoreAction.screenshotAttempt ∈
      (drafter_field_main ⟨true, false, .retFalse, true, true, false⟩).2 := by
  have h := failed_transition_error_reporting
    ⟨true, false, .retFalse, true, true, false⟩ rfl
  exact (h.2.1 rfl)

/-- C4: a Human Input Gate submission is accepted (phase moves to
`continuing`) iff every descriptor with `required = true` received a
value that is non-empty after stripping whitespace; a rejected submission
leaves the session state (hence the `waiting_for_input` phase) untouched;
and the concrete submission whose only blank field is the optional text
field "Pincode", left empty, is accepted. -/
theorem required_field_gate :
    (∀ (validated : List FieldDesc) (inputs : List (String × String))
       (st : SessionState), st.automation_phase = "waiting_for_input" →
      (((submit_manual_input validated inputs st).automation_phase =
          "continuing") ↔
        (∀ f ∈ validated, f.required = true →
          pyStrip ((strLookup inputs f.key).getD "") ≠ "")) ∧
      ((¬ ∀ f ∈ validated, f.required = true →
          pyStrip ((strLookup inputs f.key).getD "") ≠ "") →
        submit_manual_input validated inputs st = st)) ∧
    (submit_manual_input (validate_and_transform_empty_fields ["Pincode"])
      [("Pincode", "")]
      ⟨"waiting_for_input", "waiting_for_input", ["Pincode"], true, []⟩
      ).automation_phase = "continuing" := by
  constructor
  · intro validated inputs st hph
    have hiff : (missing_required validated inputs).isEmpty = true ↔
        (∀ f ∈ validated, f.required = true →
          pyStrip ((strLookup inputs f.key).getD "") ≠ "") := by
      unfold missing_required
      rw [List.isEmpty_iff, List.map_eq_nil_iff, List.filter_eq_nil_iff]
      constructor
      · intro h f hf hreq
        have h2 := h f hf
        simp [hreq] at h2
        exact h2
      · intro h f hf
        simp only [Bool.and_eq_true, decide_eq_true_eq, not_and]
        intro hreq
        exact h f hf hreq
    by_cases hm : (missing_required validated inputs).isEmpty = true
    · have hsub : submit_manual_input validated inputs st =
          { st with manual_inputs := inputs,
                    automation_phase := "continuing",
                    automation_status := "running" } := by
        simp [submit_manual_input, hm]
      refine ⟨?_, ?_⟩
      · rw [hsub]
        exact iff_of_true rfl (hiff.mp hm)
      · intro hR
        exact absurd (hiff.mp hm) hR
    · have hm2 : (missing_required validated inputs).isEmpty = false := by
        cases hb : (missing_required validated inputs).isEmpty
        · rfl
        · exact absurd hb hm
      have hsub : submit_manual_input validated inputs st = st := by
        simp [submit_manual_input, hm2]
      refine ⟨?_, fun _ => hsub⟩
      rw [hsub]
      apply iff_of_false
      · rw [hph]
        decide
      · intro hR
        exact hm (hiff.mpr hR)
  · rfl

/-- C4 witness: instantiating the gate law at the Pincode submission. -/
theorem required_field_gate_witness :
    (submit_manual_input (validate_and_transform_empty_fields ["Pincode"])
      [("Pincode", "")]
      ⟨"waiting_for_input", "waiting_for_input", ["Pincode"], true, []⟩
      ).automation_phase = "continuing" ↔
    (∀ f ∈ validate_and_transform_empty_fields ["Pincode"],
      f.required = true →
        pyStrip ((strLookup [("Pincode", "")] f.key).getD "") ≠ "") := by
  exact (required_field_gate.1 (validate_and_transform_empty_fields
    ["Pincode"]) [("Pincode", "")]
    ⟨"waiting_for_input", "waiting_for_input", ["Pincode"], true, []⟩ rfl).1

/-- C6: when both extraction records are absent, the loaded combined data
holds only the default-template fallback of the image loader, the
conversion completes without failure and produces a Target Record equal
to the default drafter template, and the blank-field list computed from
it is exactly the template keys with empty string values — the pre-seeded
defaults (" ", "Yes", "ft") are not blank. -/
theorem fallback_totality_both_records_absent :
    load_combined_analysis_data none none =
      .vdict [("image_analysis", .vdict get_default_drafter_template)] ∧
    convert_inner [("image_analysis", .vdict get_default_drafter_template)] =
      .ok templateFields ∧
    convert_combined_to_drafter_format
      [("image_analysis", .vdict get_default_drafter_template)] =
      get_default_drafter_template ∧
    find_blank_fields templateFields =
      ["Status of holding", "Type of Property As per Document",
       "Property situated", "Flats(on each floor)", "Occupancy percent",
       "Residual age of Property (years)", "Request From/Allocated By",
       "Plot No/House No", "Floor No.", "Building/Wing Name",
       "Street No./Road Name", "Scheme Name", "Village/City", "Pincode",
       "Locality", "Address as per Identifier Docs", "Class of Locality",
       "Property usage", "Any Negative Locality",
       "Location- As per DLC Portal", "Maintenance Levels",
       "Deviation For AU-Remark", "Setbacks As per Rule-Front",
       "Setbacks As per Rule-Back", "Setbacks As per Rule-Side 1",
       "Setbacks As per Rule-Side 2", "East - As Per Document(Boundary)",
       "West - As Per Document(Boundary)",
       "North - As per Document(Boundary)",
       "south - As per Document(Boundary)", "East - As per Docs(Dimension)",
       "West - As per Docs(Dimension)", "North - As per Docs(Dimension)",
       "South - As per Docs(Dimension)"] ∧
    "Unit For Dimension (Doc)" ∉ find_blank_fields templateFields ∧
    "Document Provided for Valuation" ∉ find_blank_fields templateFields ∧
    "Basic amenities available? (Water, Road)" ∉
      find_blank_fields templateFields := by
  refine ⟨rfl, rfl, rfl, rfl, by decide, by decide, by decide⟩

/-- C9 counterexample: for the Target Record `{}` (every key absent), the
spec's blank definition classifies the template key "Pincode" as blank,
but `find_blank_fields` returns the empty list — absent keys are never
reported. -/
theorem find_blank_fields_absent_key_counterexample :
    find_blank_fields [] = [] ∧
    spec_blank_field [] "Pincode" = true ∧
    "Pincode" ∈ templateFields.map Prod.fst := by
  exact ⟨rfl, rfl, by decide⟩

/-- C9 amended: for every Target Record whose keys are distinct,
`find_blank_fields` returns exactly the keys that are present in the
record with an empty string/list/mapping value; keys absent from the
record are never reported blank (and no other field is reported). -/
theorem find_blank_fields_exactly_present_empty :
    ∀ (data : List (String × PyVal)) (k : String),
      (data.map Prod.fst).Nodup →
      (k ∈ find_blank_fields data ↔
        ∃ v, pyLookup data k = some v ∧ blankValue v = true) := by
  intro data k hnd
  unfold find_blank_fields
  rw [List.mem_map]
  constructor
  · rintro ⟨p, hp, hk⟩
    rw [List.mem_filter] at hp
    refine ⟨p.2, ?_, hp.2⟩
    rw [← hk]
    exact pyLookup_of_mem_nodup hnd hp.1
  · rintro ⟨v, hv, hb⟩
    exact ⟨(k, v), List.mem_filter.mpr ⟨pyLookup_mem hv, hb⟩, rfl⟩

/-- C9 amended witness: a concrete record with one blank and one
populated field. -/
theorem find_blank_fields_exactly_present_empty_witness :
    "Status of holding" ∈ find_blank_fields
      [("Status of holding", .vstr ""), ("Pincode", .vstr "302001")] ↔
    ∃ v, pyLookup [("Status of holding", .vstr ""),
      ("Pincode", .vstr "302001")] "Status of holding" = some v ∧
      blankValue v = true := by
  exact find_blank_fields_exactly_present_empty
    [("Status of holding", .vstr ""), ("Pincode", .vstr "302001")]
    "Status of holding" (by decide)

/-- C1: for every target key mapped from the document-derived record with
a present, non-"NA" source value, the merged Target Record holds the
document-derived value (never the image-derived one — the image mappings
touch disjoint target keys); and any key whose merged value differs from
its value after the document pass had a blank (falsy) value after the
document pass, i.e. image-derived values are copied only into target
fields still blank after the document pass. -/
theorem merge_document_priority :
    (∀ (doc img : PyVal) (inner : List (String × PyVal)) (tk df : String)
       (v : PyVal),
      convert_inner (mkCombined doc img) = .ok inner →
      (tk, df) ∈ doc_field_mapping →
      doc_assign doc df = some v →
      pyLookup inner tk = some v) ∧
    (∀ (doc img : PyVal) (inner : List (String × PyVal)) (tk : String),
      convert_inner (mkCombined doc img) = .ok inner →
      pyLookup inner tk ≠ pyLookup (doc_phase (mkCombined doc img)) tk →
      optBlank (pyLookup (doc_phase (mkCombined doc img)) tk) = true) := by
  constructor
  · intro doc img inner tk df v hok hmem hassign
    have hdoc : doc_phase (mkCombined doc img) = doc_pass doc templateFields :=
      rfl
    rcases convert_inner_effect hok tk with heq | ⟨hin, _⟩
    · rw [heq, hdoc]
      unfold doc_pass
      rw [doc_foldl_lookup doc doc_field_mapping templateFields tk df
        (by decide) hmem]
      rw [hassign]
    · exfalso
      have hdisj : ∀ p ∈ doc_field_mapping,
          p.1 ∉ image_field_mapping.map Prod.fst := by decide
      exact hdisj (tk, df) hmem hin
  · intro doc img inner tk hok hne
    rcases convert_inner_effect hok tk with heq | ⟨_, hb⟩
    · exact absurd heq hne
    · exact hb

/-- C1 witness: the sample records give the document value "Lease Hold"
for "Status of holding" in the merged record, and the image-filled key
"Flats(on each floor)" was blank after the document pass. -/
theorem merge_document_priority_witness :
    pyLookup sampleMergedInner "Status of holding" =
      some (.vstr "Lease Hold") ∧
    optBlank (pyLookup (doc_phase (mkCombined sampleDocRecord
      sampleImgRecord)) "Flats(on each floor)") = true := by
  constructor
  · exact merge_document_priority.1 sampleDocRecord sampleImgRecord
      sampleMergedInner "Status of holding" "Holding_status"
      (.vstr "Lease Hold") rfl (by decide) rfl
  · apply merge_document_priority.2 sampleDocRecord sampleImgRecord
      sampleMergedInner "Flats(on each floor)" rfl
    intro h
    exact absurd (congrArg optBlank h) (by decide)

end AuSpec
